/-
Verification of the EV dashboard (`app.py`) data pipeline.

The dashboard's core is: discover exactly one CSV file, parse it, clean a
handful of columns, filter rows by two user-selected sets, and aggregate.
We model rows as Lean structures, columns as lists, pandas `NaN`/missing
values as `Option`, and operations that raise Python exceptions as
`Except String`.  Python/numpy floats are modelled by `ℚ`: every numeric
literal the extraction regexes can capture denotes an exact decimal, and
the equalities the spec asserts (`longitude == x`) are equalities between
two parses of the same literal, which hold at the `ℚ` level exactly when
they hold for IEEE doubles.

Regex modelling (`app.py` lines 85-86):
  * `df["longitude"] = df["vehicle_location"].str.extract(r"POINT \(([-\d\.]+)")`
    `str.extract` uses `re.search`: the leftmost position where the literal
    `POINT (` is followed by at least one character of the class `[-\d.]`
    matches, and the group captures the maximal run of class characters.
  * `df["latitude"] = df["vehicle_location"].str.extract(r"([-\d\.]+)\)$")`
    anchored at the end: Python's `$` (without `re.MULTILINE`) matches at
    the end of the string and also just before a single trailing newline,
    so a match exists iff the string ends in `)` or in `)\n` with class
    characters immediately before that `)`; by leftmost semantics the
    group is the longest run of class characters ending immediately
    before it.
  * The class `\d` is modelled by ASCII `Char.isDigit`; Python's `\d`
    also matches non-ASCII Unicode decimal digits, a sliver of the input
    space none of the results below depends on.
  * A row where a pattern does not match gets `NaN` (here `none`); the
    subsequent `.astype(float)` raises if a captured string is not a valid
    float literal (e.g. `".."`), which we model as `Except.error`.
-/
import Mathlib

namespace EVDash

/-- The character class `[-\d\.]` of both extraction regexes. -/
def isCoordChar (c : Char) : Bool :=
  c = '-' || c = '.' || c.isDigit

/-- One attempt of the longitude pattern `POINT \(([-\d\.]+)` at the head of
the string: the literal `POINT (` followed by a nonempty maximal run of
class characters. -/
def lonHere : List Char → Option (List Char)
  | 'P' :: 'O' :: 'I' :: 'N' :: 'T' :: ' ' :: '(' :: t =>
    let run := t.takeWhile isCoordChar
    if run.isEmpty then none else some run
  | _ => none

/-- `re.search` of the longitude pattern: try every position left to right,
return the first capture. -/
def extractLon : List Char → Option (List Char)
  | [] => none
  | c :: rest =>
    match lonHere (c :: rest) with
    | some run => some run
    | none => extractLon rest

/-- Python's `$` (no `re.MULTILINE`): it matches at the very end and just
before one trailing newline, so the anchored search may first discard a
single final `'\n'`. -/
def stripNL (r : List Char) : List Char :=
  if r.head? = some '\n' then r.tail else r

/-- `re.search` of the latitude pattern `([-\d\.]+)\)$`: after the
`$`-anchor treatment of one trailing newline, the string must end in `)`
and the group is the longest run of class characters immediately before
that `)` (nonempty). -/
def extractLat (s : List Char) : Option (List Char) :=
  match stripNL s.reverse with
  | ')' :: rest =>
    let run := rest.takeWhile isCoordChar
    if run.isEmpty then none else some run.reverse
  | _ => none

/-- Value of a digit string (most significant first). -/
def digitsVal (l : List Char) : Nat :=
  l.foldl (fun a c => 10 * a + (c.toNat - '0'.toNat)) 0

/-- The literal with an optional leading `-` stripped. -/
def decBody (s : List Char) : List Char :=
  if s.head? = some '-' then s.tail else s

/-- Python `float()` acceptance, restricted to strings over the class
`[-\d.]`: an optional leading `-`, then a nonempty body of digits with at
most one `.` and at least one digit. -/
def isValidDec (s : List Char) : Bool :=
  let body := decBody s
  !body.isEmpty && body.all (fun c => c.isDigit || c = '.') &&
    body.count '.' ≤ 1 && body.any Char.isDigit

/-- The value of a sign-stripped decimal body: integer part plus
fractional part. -/
def bodyValQ (body : List Char) : ℚ :=
  let ip := body.takeWhile (fun c => c != '.')
  let fp := (body.dropWhile (fun c => c != '.')).drop 1
  (digitsVal ip : ℚ) + (digitsVal fp : ℚ) / (10 : ℚ) ^ fp.length

/-- The exact rational denoted by a decimal literal (integer part plus
fractional part; a leading `-` negates). -/
def decValQ (s : List Char) : ℚ :=
  if s.head? = some '-' then -(bodyValQ (decBody s)) else bodyValQ (decBody s)

/-- Model of Python `float(s)` for strings over the class `[-\d.]`:
`none` models the `ValueError` that `.astype(float)` turns into a raised
exception. -/
def parseDecQ (s : List Char) : Option ℚ :=
  if isValidDec s then some (decValQ s) else none

/-- `.astype(float)` applied to one extracted cell: an unmatched row is
`NaN` (`none`); a matched capture must parse or the conversion raises. -/
def coordOf (ext : Option (List Char)) : Except String (Option ℚ) :=
  match ext with
  | none => .ok none
  | some cap =>
    match parseDecQ cap with
    | some q => .ok (some q)
    | none => .error "could not convert string to float"

/-- Lines 85-89 of `app.py` for a single `vehicle_location` cell: extract
both groups, then convert latitude (line 88) and longitude (line 89) to
float.  The result is `(longitude, latitude)` with `none` for `NaN`. -/
def locClean (s : List Char) : Except String (Option ℚ × Option ℚ) := do
  let lonCap := extractLon s
  let latCap := extractLat s
  let lat ← coordOf latCap
  let lon ← coordOf lonCap
  pure (lon, lat)

/-- A well-formed WKT point string `POINT (x y)`. -/
def wkt (x y : List Char) : List Char :=
  "POINT (".toList ++ x ++ ' ' :: (y ++ [')'])

/-- Result of `load_data` (`app.py` lines 60-74).  `st.error` + `st.stop`
halt the script before anything is rendered; we model the two fatal
branches as dedicated constructors, the second carrying the list of
matches that `st.write(files)` displays. -/
inductive LoadResult (Table : Type) where
  | noFile : LoadResult Table
  | multipleFiles (files : List (List Char)) : LoadResult Table
  | loaded (t : Table) : LoadResult Table
deriving DecidableEq, Repr

/-- `f.lower().endswith(".csv")`, on filenames as character lists. -/
def isCsvName (f : List Char) : Bool :=
  ".csv".toList.isSuffixOf (f.map Char.toLower)

/-- `load_data`: scan the directory listing for names ending in `.csv`
(case-insensitive), halt on zero or several matches, otherwise parse the
single match.  `@st.cache_data` memoizes the call; in the embedding the
loader is a pure function of the listing, so repeated invocations return
the same table. -/
def load_data {Table : Type} [Inhabited Table]
    (listing : List (List Char)) (readCsv : List Char → Table) :
    LoadResult Table :=
  let files := listing.filter isCsvName
  if files.length = 0 then .noFile
  else if 1 < files.length then .multipleFiles files
  else .loaded (readCsv files.headI)

/-- A raw row as parsed from the CSV, before cleaning.  Numeric cells are
`Option ℚ` (`none` models a pandas `NaN`/missing value); categorical cells
are strings. -/
structure RawRow where
  model_year : Option ℚ
  make : String
  city : String
  model : String
  electric_range : Option ℚ
  base_msrp : Option ℚ
  vehicle_location : String
deriving DecidableEq, Repr

/-- A cleaned row: `model_year`, `electric_range`, `base_msrp` are genuine
integers (never missing), and the derived coordinates are `Option ℚ`
(`none` = `NaN` for a row whose pattern did not match). -/
structure Row where
  model_year : Int
  make : String
  city : String
  model : String
  electric_range : Int
  base_msrp : Int
  longitude : Option ℚ
  latitude : Option ℚ
deriving DecidableEq, Repr

/-- `int()` / numpy float-to-int cast: truncation toward zero. -/
def truncQ (q : ℚ) : Int :=
  if q < 0 then Int.ceil q else Int.floor q

/-- `.astype(int)` on one cell: raises on `NaN`, truncates otherwise. -/
def astypeInt (v : Option ℚ) : Except String Int :=
  match v with
  | none => .error "Cannot convert non-finite values (NA or inf) to integer"
  | some q => .ok (truncQ q)

/-- Lines 81-89 of `app.py` for one row: `model_year.astype(int)`,
`electric_range.fillna(0).astype(int)`, `base_msrp.fillna(0).astype(int)`,
then the coordinate extraction and float conversion. -/
def cleanRow (r : RawRow) : Except String Row := do
  let my ← astypeInt r.model_year
  let er := truncQ (r.electric_range.getD 0)
  let bm := truncQ (r.base_msrp.getD 0)
  let (lon, lat) ← locClean r.vehicle_location.toList
  pure { model_year := my, make := r.make, city := r.city, model := r.model,
         electric_range := er, base_msrp := bm,
         longitude := lon, latitude := lat }

/-- The row predicate of the filter (lines 114-117):
`df["model_year"].isin(year) & df["make"].isin(make)`. -/
def rowSelected (years : List Int) (makes : List String) (r : Row) : Bool :=
  years.contains r.model_year && makes.contains r.make

/-- `df_f = df[df["model_year"].isin(year) & df["make"].isin(make)]`. -/
def filterDf (df : List Row) (years : List Int) (makes : List String) :
    List Row :=
  df.filter (rowSelected years makes)

/-- `sorted(df["model_year"].unique())`: the default year selection. -/
def defaultYears (df : List Row) : List Int :=
  ((df.map Row.model_year).dedup).insertionSort (· ≤ ·)

/-- `sorted(df["make"].unique())`: the default manufacturer selection. -/
def defaultMakes (df : List Row) : List String :=
  ((df.map Row.make).dedup).insertionSort (· ≤ ·)

/-- `Series.mean()`: `NaN` (`none`) on an empty series, else the exact
arithmetic mean. -/
def seriesMeanQ (l : List Int) : Option ℚ :=
  if l.isEmpty then none else some ((l.sum : ℚ) / (l.length : ℚ))

/-- The Avg Mileage KPI (line 140): `int(df_f["electric_range"].mean())`.
`int(NaN)` raises `ValueError`, modelled as `Except.error`. -/
def avgMileageKPI (rows : List Row) : Except String Int :=
  match seriesMeanQ (rows.map Row.electric_range) with
  | none => .error "cannot convert float NaN to integer"
  | some q => .ok (truncQ q)

/-- `df_f.groupby("make").size()` (line 158): one `(make, count)` pair per
distinct manufacturer, keys sorted ascending as pandas `groupby` does. -/
def makeCounts (rows : List Row) : List (String × Nat) :=
  (((rows.map Row.make).dedup).insertionSort (· ≤ ·)).map
    (fun m => (m, rows.countP (fun r => r.make == m)))

/-- The Total EVs KPI (line 126): `len(df_f)`. -/
def totalEVs (rows : List Row) : Nat :=
  rows.length

/- ### Helper lemmas about the regex model -/

theorem takeWhile_all_append (p : Char → Bool) :
    ∀ (x : List Char) (c : Char) (r : List Char),
      (∀ a ∈ x, p a = true) → p c = false →
      (x ++ c :: r).takeWhile p = x
  | [], c, r, _, hc => by simp [List.takeWhile_cons, hc]
  | a :: x, c, r, hx, hc => by
    have ha : p a = true := hx a (by simp)
    have ih := takeWhile_all_append p x c r (fun b hb => hx b (by simp [hb])) hc
    simp [List.takeWhile_cons, ha, ih]

theorem lonHere_point (x : List Char) (c : Char) (t : List Char)
    (hxne : x ≠ []) (hx : ∀ a ∈ x, isCoordChar a = true)
    (hc : isCoordChar c = false) :
    lonHere ("POINT (".toList ++ (x ++ c :: t)) = some x := by
  have hrun : (x ++ c :: t).takeWhile isCoordChar = x :=
    takeWhile_all_append isCoordChar x c t hx hc
  show lonHere ('P' :: 'O' :: 'I' :: 'N' :: 'T' :: ' ' :: '(' :: (x ++ c :: t))
      = some x
  simp [lonHere, hrun, hxne]

theorem extractLon_eq_of_lonHere (c : Char) (rest : List Char)
    (run : List Char) (h : lonHere (c :: rest) = some run) :
    extractLon (c :: rest) = some run := by
  simp only [extractLon, h]

theorem extractLon_point (x : List Char) (c : Char) (t : List Char)
    (hxne : x ≠ []) (hx : ∀ a ∈ x, isCoordChar a = true)
    (hc : isCoordChar c = false) :
    extractLon ("POINT (".toList ++ (x ++ c :: t)) = some x :=
  extractLon_eq_of_lonHere 'P'
    ('O' :: 'I' :: 'N' :: 'T' :: ' ' :: '(' :: (x ++ c :: t)) x
    (lonHere_point x c t hxne hx hc)

theorem extractLat_eq_some (u y : List Char) (c : Char)
    (hyne : y ≠ []) (hy : ∀ a ∈ y, isCoordChar a = true)
    (hc : isCoordChar c = false) :
    extractLat (u ++ (c :: (y ++ [')']))) = some y := by
  have hrev : (u ++ (c :: (y ++ [')']))).reverse
      = ')' :: (y.reverse ++ (c :: u.reverse)) := by
    simp
  have hrun : (y.reverse ++ (c :: u.reverse)).takeWhile isCoordChar
      = y.reverse :=
    takeWhile_all_append isCoordChar y.reverse c u.reverse
      (fun a ha => hy a (List.mem_reverse.mp ha)) hc
  have hstrip : stripNL (')' :: (y.reverse ++ (c :: u.reverse)))
      = ')' :: (y.reverse ++ (c :: u.reverse)) := by
    simp [stripNL]
  unfold extractLat
  rw [hrev, hstrip]
  simp [hrun, hyne]

theorem extractLat_none_of_last_ne (u : List Char) (d : Char)
    (hd : d ≠ ')') (hdn : d ≠ '\n') : extractLat (u ++ [d]) = none := by
  have hrev : (u ++ [d]).reverse = d :: u.reverse := by simp
  have hstrip : stripNL (d :: u.reverse) = d :: u.reverse := by
    simp [stripNL, hdn]
  unfold extractLat
  rw [hrev, hstrip]
  split
  · next rest heq =>
      injection heq with h1 _
      exact absurd h1 hd
  · rfl

theorem valid_ne_nil (s : List Char) (h : isValidDec s = true) : s ≠ [] := by
  rintro rfl
  simp [isValidDec, decBody] at h

theorem valid_all_class (s : List Char) (h : isValidDec s = true) :
    ∀ a ∈ s, isCoordChar a = true := by
  intro a ha
  rcases s with _ | ⟨c, t⟩
  · simp at ha
  · by_cases hc : c = '-'
    · subst hc
      have hbody : decBody ('-' :: t) = t := by simp [decBody]
      simp only [isValidDec, hbody, Bool.and_eq_true] at h
      have hall := List.all_eq_true.mp h.1.1.2
      rcases List.mem_cons.mp ha with rfl | hat
      · decide
      · have := hall a hat
        simp only [Bool.or_eq_true, decide_eq_true_eq] at this
        simp only [isCoordChar, Bool.or_eq_true, decide_eq_true_eq]
        tauto
    · have hbody : decBody (c :: t) = c :: t := by simp [decBody, hc]
      simp only [isValidDec, hbody, Bool.and_eq_true] at h
      have hall := List.all_eq_true.mp h.1.1.2
      have := hall a ha
      simp only [Bool.or_eq_true, decide_eq_true_eq] at this
      simp only [isCoordChar, Bool.or_eq_true, decide_eq_true_eq]
      tauto

theorem parseDecQ_of_valid (s : List Char) (h : isValidDec s = true) :
    parseDecQ s = some (decValQ s) := by
  simp [parseDecQ, h]

/- ### Claim C1 -/

/-- Claim C1: for every `vehicle_location` of the valid form `POINT (x y)`
with `x` and `y` signed decimal literals (optional leading `-`, optional
decimal point, no fixed digit count), the cleaning step's extraction
captures exactly the substrings `x` and `y`, and the resulting longitude
and latitude are exactly the decimals they denote. -/
theorem wkt_extraction_roundtrip (x y : List Char)
    (hx : isValidDec x = true) (hy : isValidDec y = true) :
    extractLon (wkt x y) = some x ∧ extractLat (wkt x y) = some y ∧
    locClean (wkt x y) = .ok (some (decValQ x), some (decValQ y)) := by
  have hxc := valid_all_class x hx
  have hyc := valid_all_class y hy
  have hxne := valid_ne_nil x hx
  have hyne := valid_ne_nil y hy
  have hlon : extractLon (wkt x y) = some x := by
    unfold wkt
    exact extractLon_point x ' ' (y ++ [')']) hxne hxc (by decide)
  have hlat : extractLat (wkt x y) = some y := by
    unfold wkt
    exact extractLat_eq_some ("POINT (".toList ++ x) y ' ' hyne hyc (by decide)
  refine ⟨hlon, hlat, ?_⟩
  simp [locClean, hlon, hlat, coordOf, parseDecQ_of_valid x hx,
    parseDecQ_of_valid y hy, Bind.bind, Except.bind, Pure.pure, Except.pure]

theorem decValQ_negExample : decValQ "-122.33".toList = -((12233 : ℚ) / 100) := by
  have h0 : "-122.33".toList.head? = some '-' := by decide
  have hb : decBody "-122.33".toList = ['1', '2', '2', '.', '3', '3'] := by decide
  unfold decValQ
  rw [h0, hb, if_pos rfl]
  have hip : List.takeWhile (fun c => c != '.') ['1', '2', '2', '.', '3', '3']
      = ['1', '2', '2'] := by decide
  have hfp : (List.dropWhile (fun c => c != '.') ['1', '2', '2', '.', '3', '3']).drop 1
      = ['3', '3'] := by decide
  have hd1 : digitsVal ['1', '2', '2'] = 122 := by decide
  have hd2 : digitsVal ['3', '3'] = 33 := by decide
  norm_num [bodyValQ, hip, hfp, hd1, hd2]

theorem decValQ_posExample : decValQ "47.61".toList = (4761 : ℚ) / 100 := by
  have h0 : "47.61".toList.head? = some '4' := by decide
  have hb : decBody "47.61".toList = ['4', '7', '.', '6', '1'] := by decide
  unfold decValQ
  rw [h0, hb, if_neg (by decide)]
  have hip : List.takeWhile (fun c => c != '.') ['4', '7', '.', '6', '1']
      = ['4', '7'] := by decide
  have hfp : (List.dropWhile (fun c => c != '.') ['4', '7', '.', '6', '1']).drop 1
      = ['6', '1'] := by decide
  have hd1 : digitsVal ['4', '7'] = 47 := by decide
  have hd2 : digitsVal ['6', '1'] = 61 := by decide
  norm_num [bodyValQ, hip, hfp, hd1, hd2]

/-- Witness for claim C1 at the spec's example `POINT (-122.33 47.61)`:
the captures are exactly `-122.33` and `47.61`, and the cleaned longitude
and latitude are exactly `-122.33` and `47.61`. -/
theorem wkt_extraction_roundtrip_witness :
    extractLon (wkt "-122.33".toList "47.61".toList) = some "-122.33".toList ∧
    extractLat (wkt "-122.33".toList "47.61".toList) = some "47.61".toList ∧
    locClean (wkt "-122.33".toList "47.61".toList)
      = .ok (some (-((12233 : ℚ) / 100)), some ((4761 : ℚ) / 100)) := by
  have h := wkt_extraction_roundtrip "-122.33".toList "47.61".toList
    (by decide) (by decide)
  refine ⟨h.1, h.2.1, ?_⟩
  rw [h.2.2, decValQ_negExample, decValQ_posExample]

/- ### Claim C2 -/

/-- A concrete vehicle record used in counterexamples. -/
def sampleRow : Row :=
  { model_year := 2020, make := "TESLA", city := "Seattle",
    model := "MODEL 3", electric_range := 266, base_msrp := 0,
    longitude := none, latitude := none }

/-- Counterexample to claim C2: with the manufacturer selection empty, the
filter does return zero rows, but the Avg Mileage KPI
`int(df_f["electric_range"].mean())` raises (`mean` of an empty series is
`NaN` and `int(NaN)` is a `ValueError`) instead of returning a default. -/
theorem empty_make_avg_raises_cx :
    filterDf [sampleRow] [2020] [] = [] ∧
    avgMileageKPI (filterDf [sampleRow] [2020] [])
      = .error "cannot convert float NaN to integer" := by
  constructor <;> rfl

/-- Claim C2 amended: an empty manufacturer selection always yields zero
rows, and on that empty subset the average-mileage computation fails
(`int` of the `NaN` mean raises); it does not return a default value. -/
theorem filter_empty_makes_mean_fails (df : List Row) (years : List Int) :
    filterDf df years [] = [] ∧
    avgMileageKPI (filterDf df years [])
      = .error "cannot convert float NaN to integer" := by
  have h : filterDf df years [] = [] := by
    simp [filterDf, rowSelected]
  exact ⟨h, by rw [h]; rfl⟩

/- ### Claim C3 -/

/-- Counterexample to claim C3: the malformed geometry string `POINT (..)`
does not degrade to `NaN` coordinates — both regexes capture the substring
`..`, which is not a valid float literal, so the cleaning step's
`.astype(float)` raises instead of producing undefined coordinates. -/
theorem malformed_capture_raises_cx :
    locClean "POINT (..)".toList = .error "could not convert string to float" := by
  rfl

/-- Claim C3 amended: a malformed geometry string yields an undefined
(`NaN`) coordinate for each pattern that fails to match, without raising,
and the row is kept; but the two patterns are independent — the claim's own
example `POINT (-122.33 47.61` (missing `)`) keeps a *defined* longitude
with only the latitude undefined — and a matching capture that is not a
valid float literal makes the cleaning step raise. -/
theorem malformed_geometry_cleaning :
    (∀ s : List Char, extractLon s = none → extractLat s = none →
      locClean s = .ok (none, none)) ∧
    locClean "POINT (-122.33 47.61".toList
      = .ok (some (-((12233 : ℚ) / 100)), none) := by
  constructor
  · intro s hlon hlat
    simp [locClean, hlon, hlat, coordOf, Bind.bind, Except.bind,
      Pure.pure, Except.pure]
  · have hlon : extractLon "POINT (-122.33 47.61".toList
        = some "-122.33".toList := by decide
    have hlat : extractLat "POINT (-122.33 47.61".toList = none := by decide
    have hp : parseDecQ "-122.33".toList
        = some (decValQ "-122.33".toList) :=
      parseDecQ_of_valid _ (by decide)
    have hv : decValQ "-122.33".toList
        = -((12233 : ℚ) / 100) := decValQ_negExample
    simp only [locClean]
    rw [hlat, hlon]
    simp only [coordOf, Bind.bind, Except.bind, Pure.pure, Except.pure]
    rw [hp, hv]

/-- Witness for the amended claim C3: a string matched by neither pattern
cleans to `NaN` coordinates without an error. -/
theorem malformed_geometry_cleaning_witness :
    locClean "no geometry here".toList = .ok (none, none) :=
  malformed_geometry_cleaning.1 "no geometry here".toList
    (by decide) (by decide)

/- ### Claims C8 and C9 -/

/-- Claim C8: filtering returns a subset (an order-preserving sublist) of
the cleaned table; in this pure embedding the source table itself is a
value that no operation mutates, so every row and column of the source is
unchanged by filtering. -/
theorem filterDf_sublist (df : List Row) (years : List Int)
    (makes : List String) : List.Sublist (filterDf df years makes) df :=
  List.filter_sublist df

/-- Claim C9: the filter is idempotent — re-filtering its own output with
the same two selection sets changes nothing. -/
theorem filterDf_idempotent (df : List Row) (years : List Int)
    (makes : List String) :
    filterDf (filterDf df years makes) years makes
      = filterDf df years makes :=
  List.filter_eq_self.mpr (fun _ ha => (List.mem_filter.mp ha).2)

/- ### Claim C4 -/

/-- Claim C4: with the default selections — all distinct `model_year`
values and all distinct `make` values — the filter is the identity on the
cleaned table (in particular the row count is unchanged). -/
theorem default_filter_identity (df : List Row) :
    filterDf df (defaultYears df) (defaultMakes df) = df := by
  apply List.filter_eq_self.mpr
  intro r hr
  have hy : r.model_year ∈ defaultYears df := by
    rw [defaultYears, List.mem_insertionSort, List.mem_dedup]
    exact List.mem_map.mpr ⟨r, hr, rfl⟩
  have hm : r.make ∈ defaultMakes df := by
    rw [defaultMakes, List.mem_insertionSort, List.mem_dedup]
    exact List.mem_map.mpr ⟨r, hr, rfl⟩
  simp [rowSelected, hy, hm]

/- ### Claim C5 -/

theorem beq_str_comm (a b : String) : (a == b) = (b == a) := by
  by_cases h : a = b
  · subst h; rfl
  · simp [beq_iff_eq, h, Ne.symm h]

theorem sum_map_countP_cons (ms : List String) (r : Row) (rest : List Row) :
    (ms.map (fun m => (r :: rest).countP (fun x => x.make == m))).sum
      = (ms.map (fun m => rest.countP (fun x => x.make == m))).sum
        + ms.count r.make := by
  induction ms with
  | nil => simp
  | cons m ms ih =>
    rw [List.map_cons, List.map_cons, List.sum_cons, List.sum_cons,
      List.count_cons, List.countP_cons, ih, beq_str_comm m r.make]
    cases hb : (r.make == m) <;> simp [hb] <;> omega

theorem sum_counts_all (rows : List Row) (ms : List String)
    (hnd : ms.Nodup) (hmem : ∀ r ∈ rows, r.make ∈ ms) :
    (ms.map (fun m => rows.countP (fun x => x.make == m))).sum
      = rows.length := by
  induction rows with
  | nil => simp
  | cons r rest ih =>
    rw [sum_map_countP_cons, ih (fun q hq => hmem q (by simp [hq]))]
    rw [List.count_eq_one_of_mem hnd (hmem r (by simp))]
    simp

/-- Claim C5: the per-manufacturer grouped counts feeding the bar chart
sum to the Total EVs KPI (the row count of the filtered subset). -/
theorem makeCounts_sum_eq_total (rows : List Row) :
    ((makeCounts rows).map Prod.snd).sum = totalEVs rows := by
  unfold makeCounts totalEVs
  rw [List.map_map]
  have hnd : (((rows.map Row.make).dedup).insertionSort (· ≤ ·)).Nodup :=
    (List.perm_insertionSort _ _).nodup_iff.mpr (List.nodup_dedup _)
  have hmem : ∀ r ∈ rows,
      r.make ∈ ((rows.map Row.make).dedup).insertionSort (· ≤ ·) := by
    intro r hr
    rw [List.mem_insertionSort, List.mem_dedup]
    exact List.mem_map.mpr ⟨r, hr, rfl⟩
  simpa using sum_counts_all rows _ hnd hmem

/- ### Claim C6 -/

/-- Claim C6: on a directory listing with zero `.csv` files (matched
case-insensitively) the loader halts with the no-file error before
rendering; with more than one it halts with the ambiguity error, carrying
the list of matches; with exactly one it parses that file and returns the
table.  The loader is a pure function of the listing, which is how
`@st.cache_data` memoization (repeated invocations return the same table
without re-parsing) appears in this embedding. -/
theorem load_data_spec {Table : Type} [Inhabited Table]
    (listing : List (List Char)) (readCsv : List Char → Table) :
    (listing.filter isCsvName = [] → load_data listing readCsv = .noFile) ∧
    (1 < (listing.filter isCsvName).length →
      load_data listing readCsv = .multipleFiles (listing.filter isCsvName)) ∧
    (∀ f, listing.filter isCsvName = [f] →
      load_data listing readCsv = .loaded (readCsv f)) ∧
    load_data listing readCsv = load_data listing readCsv := by
  refine ⟨?_, ?_, ?_, rfl⟩
  · intro h
    simp [load_data, h]
  · intro h
    have h0 : (listing.filter isCsvName).length ≠ 0 := by omega
    simp [load_data, h0, h]
  · intro f hf
    simp [load_data, hf]

/-- Witness for claim C6: a listing with one `.CSV` file (and an unrelated
file) loads that file. -/
theorem load_data_spec_witness :
    load_data ["Electric_Vehicle_Data.CSV".toList, "README.md".toList]
      List.length = .loaded ("Electric_Vehicle_Data.CSV".toList.length) :=
  (load_data_spec ["Electric_Vehicle_Data.CSV".toList, "README.md".toList]
    List.length).2.2.1 "Electric_Vehicle_Data.CSV".toList (by decide)

/- ### Claim C7 -/

theorem truncQ_intCast (n : ℤ) : truncQ ((n : ℤ) : ℚ) = n := by
  unfold truncQ
  by_cases h : ((n : ℤ) : ℚ) < 0
  · rw [if_pos h, Int.ceil_intCast]
  · rw [if_neg h, Int.floor_intCast]

/-- Claim C7: whenever the cleaning step succeeds, `model_year`,
`electric_range` and `base_msrp` of the cleaned row are integers (the `Int`
fields of `Row`, never missing): `electric_range` and `base_msrp` are the
raw values with missing entries replaced by `0` and coerced to integer,
`model_year` is the raw value coerced to integer — and a non-coercible
(missing) `model_year` is fatal: cleaning cannot succeed. -/
theorem cleanRow_spec :
    (∀ (raw : RawRow) (row : Row), cleanRow raw = .ok row →
      (∃ q, raw.model_year = some q ∧ row.model_year = truncQ q) ∧
      row.electric_range = truncQ (raw.electric_range.getD 0) ∧
      row.base_msrp = truncQ (raw.base_msrp.getD 0)) ∧
    (∀ raw : RawRow, raw.model_year = none →
      ∀ row : Row, cleanRow raw ≠ .ok row) := by
  constructor
  · intro raw row h
    cases hmy : raw.model_year with
    | none =>
      unfold cleanRow at h
      rw [hmy] at h
      simp [astypeInt, Bind.bind, Except.bind] at h
    | some q =>
      unfold cleanRow at h
      rw [hmy] at h
      cases hloc : locClean raw.vehicle_location.toList with
      | error e =>
        rw [hloc] at h
        simp [astypeInt, Bind.bind, Except.bind] at h
      | ok p =>
        obtain ⟨lon, lat⟩ := p
        rw [hloc] at h
        simp only [astypeInt, Bind.bind, Except.bind, Pure.pure,
          Except.pure, Except.ok.injEq] at h
        subst h
        exact ⟨⟨q, rfl, rfl⟩, rfl, rfl⟩
  · intro raw hmy row hcontra
    unfold cleanRow at hcontra
    rw [hmy] at hcontra
    simp [astypeInt, Bind.bind, Except.bind] at hcontra

/-- A concrete raw row: missing `electric_range`, present `base_msrp`,
geometry matched by neither extraction pattern. -/
def sampleRaw : RawRow :=
  { model_year := some 2020, make := "TESLA", city := "Seattle",
    model := "MODEL 3", electric_range := none, base_msrp := some 41000,
    vehicle_location := "POINT EMPTY" }

/-- The row `sampleRaw` cleans to. -/
def sampleCleanRow : Row :=
  { model_year := 2020, make := "TESLA", city := "Seattle",
    model := "MODEL 3", electric_range := 0, base_msrp := 41000,
    longitude := none, latitude := none }

theorem cleanRow_sampleRaw : cleanRow sampleRaw = .ok sampleCleanRow := by
  have hloc : locClean "POINT EMPTY".toList = .ok (none, none) := rfl
  unfold cleanRow sampleRaw
  simp only [astypeInt, Bind.bind, Except.bind, Pure.pure, Except.pure]
  rw [hloc]
  norm_num [truncQ, sampleCleanRow]

/-- Witness for claim C7 at `sampleRaw`: the missing `electric_range`
becomes `0`, `base_msrp` becomes the integer `41000`, and `model_year` the
integer `2020`. -/
theorem cleanRow_spec_witness :
    (∃ q, sampleRaw.model_year = some q
      ∧ sampleCleanRow.model_year = truncQ q) ∧
    sampleCleanRow.electric_range = truncQ (sampleRaw.electric_range.getD 0) ∧
    sampleCleanRow.base_msrp = truncQ (sampleRaw.base_msrp.getD 0) :=
  cleanRow_spec.1 sampleRaw sampleCleanRow cleanRow_sampleRaw

/- ### Claim C10 -/

theorem decValQ_one : decValQ ['1'] = 1 := by
  have h0 : (['1'] : List Char).head? = some '1' := rfl
  have hb : decBody ['1'] = ['1'] := by decide
  unfold decValQ
  rw [h0, if_neg (by decide), hb]
  have hip : List.takeWhile (fun c => c != '.') ['1'] = ['1'] := by decide
  have hfp : (List.dropWhile (fun c => c != '.') ['1']).drop 1 = [] := by
    decide
  have hd1 : digitsVal ['1'] = 1 := by decide
  have hd2 : digitsVal ([] : List Char) = 0 := by decide
  norm_num [bodyValQ, hip, hfp, hd1, hd2]

theorem decValQ_two : decValQ ['2'] = 2 := by
  have h0 : (['2'] : List Char).head? = some '2' := rfl
  have hb : decBody ['2'] = ['2'] := by decide
  unfold decValQ
  rw [h0, if_neg (by decide), hb]
  have hip : List.takeWhile (fun c => c != '.') ['2'] = ['2'] := by decide
  have hfp : (List.dropWhile (fun c => c != '.') ['2']).drop 1 = [] := by
    decide
  have hd1 : digitsVal ['2'] = 2 := by decide
  have hd2 : digitsVal ([] : List Char) = 0 := by decide
  norm_num [bodyValQ, hip, hfp, hd1, hd2]

/-- Counterexample to claim C10: the string `POINT (1 2)\n` contains
`POINT (` followed by a number and has a character (a newline) after the
closing `)`, yet its latitude is *defined*: Python's end anchor `$` also
matches just before a trailing newline, so the latitude pattern captures
`2` and the row cleans to longitude `1`, latitude `2` — not to an
undefined latitude as the claim asserts for any such string. -/
theorem trailing_newline_latitude_defined_cx :
    extractLon "POINT (1 2)\n".toList = some ['1'] ∧
    extractLat "POINT (1 2)\n".toList = some ['2'] ∧
    locClean "POINT (1 2)\n".toList = .ok (some 1, some 2) := by
  have hlon : extractLon "POINT (1 2)\n".toList = some ['1'] := by decide
  have hlat : extractLat "POINT (1 2)\n".toList = some ['2'] := by decide
  refine ⟨hlon, hlat, ?_⟩
  have hp1 : parseDecQ ['1'] = some (decValQ ['1']) :=
    parseDecQ_of_valid _ (by decide)
  have hp2 : parseDecQ ['2'] = some (decValQ ['2']) :=
    parseDecQ_of_valid _ (by decide)
  simp only [locClean]
  rw [hlat, hlon]
  simp only [coordOf, Bind.bind, Except.bind, Pure.pure, Except.pure]
  rw [hp1, hp2, decValQ_one, decValQ_two]

/-- Claim C10 amended: the two coordinate extractions are independent
pattern matches, so a row can have a defined longitude and an undefined
latitude (and vice versa).  Concretely: for every string `POINT (x y)`
followed by trailing characters whose last character is neither `)` nor a
newline (the end-anchored latitude pattern also matches just before one
trailing newline), the longitude is still captured and defined while the
latitude is `NaN`; and conversely the string `(1 2)` has a defined
latitude capture but no longitude capture. -/
theorem extraction_independence (x y c : List Char) (d : Char)
    (hx : isValidDec x = true) (hd : d ≠ ')') (hdn : d ≠ '\n') :
    extractLon (wkt x y ++ (c ++ [d])) = some x ∧
    extractLat (wkt x y ++ (c ++ [d])) = none ∧
    locClean (wkt x y ++ (c ++ [d])) = .ok (some (decValQ x), none) ∧
    extractLon "(1 2)".toList = none ∧
    extractLat "(1 2)".toList = some ['2'] := by
  have hxc := valid_all_class x hx
  have hxne := valid_ne_nil x hx
  have hshape : wkt x y ++ (c ++ [d])
      = "POINT (".toList ++ (x ++ ' ' :: (y ++ (')' :: (c ++ [d])))) := by
    simp [wkt]
  have hshape2 : wkt x y ++ (c ++ [d]) = (wkt x y ++ c) ++ [d] := by
    simp [List.append_assoc]
  have hlon : extractLon (wkt x y ++ (c ++ [d])) = some x := by
    rw [hshape]
    exact extractLon_point x ' ' (y ++ (')' :: (c ++ [d]))) hxne hxc
      (by decide)
  have hlat : extractLat (wkt x y ++ (c ++ [d])) = none := by
    rw [hshape2]
    exact extractLat_none_of_last_ne (wkt x y ++ c) d hd hdn
  refine ⟨hlon, hlat, ?_, by decide, by decide⟩
  simp only [locClean]
  rw [hlat, hlon]
  simp only [coordOf, Bind.bind, Except.bind, Pure.pure, Except.pure]
  rw [parseDecQ_of_valid x hx]

/-- Witness for amended claim C10: `POINT (-122.33 47.61)x` keeps the
defined longitude `-122.33` while its latitude is undefined. -/
theorem extraction_independence_witness :
    extractLon (wkt "-122.33".toList "47.61".toList ++ ([] ++ ['x']))
      = some "-122.33".toList ∧
    extractLat (wkt "-122.33".toList "47.61".toList ++ ([] ++ ['x']))
      = none ∧
    locClean (wkt "-122.33".toList "47.61".toList ++ ([] ++ ['x']))
      = .ok (some (-((12233 : ℚ) / 100)), none) := by
  have h := extraction_independence "-122.33".toList "47.61".toList [] 'x'
    (by decide) (by decide) (by decide)
  exact ⟨h.1, h.2.1, by rw [h.2.2.1, decValQ_negExample]⟩

end EVDash
